import Mathlib

/-!
A shallow embedding of the SQL execution engine in `src/index.js`
(class `AbstractDriver`): JavaScript values and coercions, rows as
insertion-ordered key/value lists, the predicate evaluator `doWhere`,
the LIKE pattern compiler `like2RegExp` together with a matcher for the
regular-expression fragment it emits, the nested-loop `join`, the
projector/aggregator `chooseFields`, the SELECT pipeline of `doSelect`,
the column-type mapping of `doCreate`, and a promise-outcome layer for
the error-propagation behaviour of the `do*` methods as wired through
`runSQL`/`execute`.
-/

namespace SqlParser

/-- JavaScript scalar values as they occur in this engine: strings,
(integer-valued) numbers, booleans, `null`, `undefined`, and `NaN`
(the result of arithmetic on non-numeric operands). -/
inductive Value where
  | str (s : String)
  | num (n : Int)
  | bool (b : Bool)
  | null
  | undefined
  | nan
deriving DecidableEq, Repr

/-- JavaScript `String(v)` on the embedded values. -/
def jsToString : Value → String
  | .str s => s
  | .num n => toString n
  | .bool b => if b then "true" else "false"
  | .null => "null"
  | .undefined => "undefined"
  | .nan => "NaN"

/-- JavaScript `s.toUpperCase()` on the ASCII type tokens and function
names this engine upper-cases. -/
def jsToUpperCase (s : String) : String :=
  String.mk (s.data.map Char.toUpper)

/-- Strip leading and trailing whitespace (JavaScript trimming, as
`Number` and `parseInt` perform before parsing). -/
def trimChars (cs : List Char) : List Char :=
  ((cs.dropWhile Char.isWhitespace).reverse.dropWhile Char.isWhitespace).reverse

/-- Parse a list of decimal digits into a natural number; `none` when a
non-digit appears or the list is empty. -/
def digitsToNat : List Char → Option Nat
  | [] => none
  | cs => cs.foldl (fun acc c =>
      match acc with
      | none => none
      | some n => if c.isDigit then some (n * 10 + (c.toNat - '0'.toNat)) else none)
      (some 0)

/-- JavaScript `Number(string)` restricted to the integer syntax this
engine exercises: whitespace-trimmed, empty string is `0`, an optional
sign followed by decimal digits is that integer, anything else is `NaN`
(`none`). -/
def strToNum (s : String) : Option Int :=
  match trimChars s.data with
  | [] => some 0
  | '-' :: rest => (digitsToNat rest).map (fun n => -(n : Int))
  | '+' :: rest => (digitsToNat rest).map (fun n => (n : Int))
  | cs => (digitsToNat cs).map (fun n => (n : Int))

/-- JavaScript `ToNumber` on the embedded values (`none` is `NaN`).
Used for abstract relational comparison and arithmetic, where `null`
converts to `0` and `undefined` to `NaN`. -/
def toNumber : Value → Option Int
  | .num n => some n
  | .str s => strToNum s
  | .bool b => some (if b then 1 else 0)
  | .null => some 0
  | .undefined => none
  | .nan => none

/-- JavaScript loose equality `==` on the embedded values: `null` and
`undefined` are equal only to each other, strings compare as strings,
everything else goes through numeric conversion (`NaN` equals
nothing). -/
def jsEq (a b : Value) : Bool :=
  match a, b with
  | .null, .null => true
  | .null, .undefined => true
  | .undefined, .null => true
  | .undefined, .undefined => true
  | .null, _ => false
  | _, .null => false
  | .undefined, _ => false
  | _, .undefined => false
  | .str x, .str y => x == y
  | a, b =>
      match toNumber a, toNumber b with
      | some x, some y => x == y
      | _, _ => false

/-- JavaScript strict equality `===` on the embedded values
(no coercion; `NaN` is not equal to itself). -/
def jsStrictEq (a b : Value) : Bool :=
  match a, b with
  | .str x, .str y => x == y
  | .num x, .num y => x == y
  | .bool x, .bool y => x == y
  | .null, .null => true
  | .undefined, .undefined => true
  | _, _ => false

/-- JavaScript abstract relational comparison `a < b`: `some r` is the
boolean result, `none` means "undefined" (a `NaN` was involved), which
every relational operator then treats as `false`. -/
def jsLtR (a b : Value) : Option Bool :=
  match a, b with
  | .str x, .str y => some (decide (x < y))
  | a, b =>
      match toNumber a, toNumber b with
      | some x, some y => some (decide (x < y))
      | _, _ => none

/-- JavaScript `a < b`. -/
def jsLt (a b : Value) : Bool := (jsLtR a b).getD false

/-- JavaScript `a > b` (evaluates the comparison `b < a`). -/
def jsGt (a b : Value) : Bool := (jsLtR b a).getD false

/-- JavaScript `a <= b` (negation of `b < a`, except `NaN` gives
`false`). -/
def jsLe (a b : Value) : Bool :=
  match jsLtR b a with
  | some r => !r
  | none => false

/-- JavaScript `a >= b` (negation of `a < b`, except `NaN` gives
`false`). -/
def jsGe (a b : Value) : Bool :=
  match jsLtR a b with
  | some r => !r
  | none => false

/-- JavaScript truthiness of a value. -/
def truthy : Value → Bool
  | .bool b => b
  | .num n => n != 0
  | .str s => s != ""
  | .null => false
  | .undefined => false
  | .nan => false

/-- JavaScript `a && b`: returns `a` when `a` is falsy, else `b`. -/
def jsAnd (a b : Value) : Value := if truthy a then b else a

/-- JavaScript `a + b`: string concatenation when either side is a
string, otherwise numeric addition with `NaN` contagion. -/
def jsAdd (a b : Value) : Value :=
  match a, b with
  | .str x, b => .str (x ++ jsToString b)
  | a, .str y => .str (jsToString a ++ y)
  | a, b =>
      match toNumber a, toNumber b with
      | some x, some y => .num (x + y)
      | _, _ => .nan

/-- JavaScript `x++` as used on the COUNT accumulator: numeric
conversion plus one, `NaN` when the operand has no numeric value. -/
def jsInc (v : Value) : Value :=
  match toNumber v with
  | some n => .num (n + 1)
  | none => .nan

/-- JavaScript `parseInt(v)`: stringify, then parse an optional sign
followed by leading decimal digits; `NaN` when no digits lead. -/
def jsParseInt (v : Value) : Value :=
  let core : List Char → Option Int := fun cs =>
    match cs.takeWhile Char.isDigit with
    | [] => none
    | ds => (digitsToNat ds).map (fun n => (n : Int))
  match trimChars (jsToString v).data with
  | '-' :: rest => match core rest with
      | some n => .num (-n)
      | none => .nan
  | '+' :: rest => match core rest with
      | some n => .num n
      | none => .nan
  | cs => match core cs with
      | some n => .num n
      | none => .nan

/-- A row: a JavaScript object modelled as an insertion-ordered list of
distinct string keys with values. -/
abbrev Row : Type := List (String × Value)

instance {ε α : Type} [DecidableEq ε] [DecidableEq α] : DecidableEq (Except ε α) :=
  fun a b =>
    match a, b with
    | .ok x, .ok y =>
        if h : x = y then .isTrue (by rw [h]) else .isFalse (by simp [h])
    | .error x, .error y =>
        if h : x = y then .isTrue (by rw [h]) else .isFalse (by simp [h])
    | .ok _, .error _ => .isFalse (by simp)
    | .error _, .ok _ => .isFalse (by simp)

/-- Property read `row[k]`: `undefined` when the key is absent. -/
def objGet (row : Row) (k : String) : Value :=
  match row.find? (fun p => p.1 == k) with
  | some p => p.2
  | none => .undefined

/-- Property write `row[k] = v`: overwrite in place when the key exists
(keeping its position, as JavaScript objects do for string keys),
otherwise append. -/
def objSet : Row → String → Value → Row
  | [], k, v => [(k, v)]
  | (k', v') :: rest, k, v =>
      if k' == k then (k', v) :: rest else (k', v') :: objSet rest k v

/-- Expression-tree nodes as produced by the external SQL parser and
consumed by this engine: column references (`{type:'column_ref',
table, column}`), binary expressions (`{type:'binary_expr', operator,
left, right}`), aggregate calls (`{type:'aggr_func', name,
args:{expr:{column}}}`), and any other node, which the engine only ever
reads `.value` from (literals). -/
inductive Expr where
  | column_ref (table : String) (column : String)
  | binary_expr (operator : String) (left : Expr) (right : Expr)
  | aggr_func (name : String) (argColumn : String)
  | literal (value : Value)
deriving DecidableEq, Repr

/-- Replacement `restring.replace(/([\.\*\?\$\^])/g, "\\$1")`: prefix a
backslash to each regex metacharacter the compiler escapes. -/
def escapeMeta : List Char → List Char
  | [] => []
  | c :: rest =>
      if c = '.' || c = '*' || c = '?' || c = '$' || c = '^'
      then '\\' :: c :: escapeMeta rest
      else c :: escapeMeta rest

/-- Replacement `restring.replace(/(?:\\)?%/g, fn)` where `fn` keeps a
match that starts with a backslash and otherwise substitutes `.*?`:
left-to-right scan, the optional backslash being taken greedily. -/
def replacePercent : List Char → List Char
  | [] => []
  | '\\' :: '%' :: rest => '\\' :: '%' :: replacePercent rest
  | '%' :: rest => '.' :: '*' :: '?' :: replacePercent rest
  | c :: rest => c :: replacePercent rest

/-- Replacement `restring.replace(/(?:\\)?_/g, fn)` where `fn` keeps a
match that starts with a backslash and otherwise substitutes `.`. -/
def replaceUnderscore : List Char → List Char
  | [] => []
  | '\\' :: '_' :: rest => '\\' :: '_' :: replaceUnderscore rest
  | '_' :: rest => '.' :: replaceUnderscore rest
  | c :: rest => c :: replaceUnderscore rest

/-- String-argument `s.replace(target, repl)`: replaces only the first
occurrence of `target`. -/
def replaceFirst (target repl : List Char) : List Char → List Char
  | [] => []
  | c :: rest =>
      if target.isPrefixOf (c :: rest)
      then repl ++ (c :: rest).drop target.length
      else c :: replaceFirst target repl rest

/-- The body of `like2RegExp` in `doWhere`: the source text of the
regular expression built from a LIKE pattern, without the surrounding
`^`/`$` anchors (the matcher below is anchored by construction). -/
def like2RegExpSource (like : String) : List Char :=
  let s := escapeMeta like.data
  let s := replacePercent s
  let s := replaceUnderscore s
  let s := replaceFirst ['\\', '%'] ['%'] s
  replaceFirst ['\\', '_'] ['_'] s

/-- Tokens of the regular-expression fragment `like2RegExp` emits:
literal characters (possibly via an identity escape such as `\.` or
`\%`), `.` matching any one character except line terminators, and
the lazy `.*?`. -/
inductive RTok where
  | lit (c : Char)
  | anyOne
  | anyStar
deriving DecidableEq, Repr

/-- The ECMAScript LineTerminator characters, which the `.` of a
regular expression built without the `s` flag — as `new RegExp('^' +
restring + '$')` builds it — does not match: LF, CR, LINE SEPARATOR,
and PARAGRAPH SEPARATOR. -/
def isLineTerminator (c : Char) : Bool :=
  c = '\n' || c = '\r' || c = '\u2028' || c = '\u2029'

/-- Parse an emitted regex source into tokens of the modeled fragment:
identity escapes of non-alphanumeric characters (every escape
`like2RegExp` itself emits: the five escaped metacharacters and the
kept `\%`/`\_`), the `.*?` a percent compiles to, and the `.` an
underscore compiles to. A construct outside the fragment — an
alphanumeric escape such as `\d`, a live metacharacter the compiler
leaves unescaped (`+`, `(`, `|`, brackets), or a trailing backslash,
all of which only a pattern outside the documented LIKE surface can
produce — yields `none` rather than a made-up semantics. -/
def parseRegex : List Char → Option (List RTok)
  | [] => some []
  | '\\' :: c :: rest =>
      if c.isAlphanum then none
      else (parseRegex rest).map (fun ts => .lit c :: ts)
  | '\\' :: [] => none
  | '.' :: '*' :: '?' :: rest => (parseRegex rest).map (fun ts => .anyStar :: ts)
  | '.' :: rest => (parseRegex rest).map (fun ts => .anyOne :: ts)
  | c :: rest =>
      if c = '*' || c = '+' || c = '?' || c = '(' || c = ')' || c = '[' ||
          c = ']' || c = '\x7b' || c = '\x7d' || c = '|' || c = '^' || c = '$'
      then none
      else (parseRegex rest).map (fun ts => .lit c :: ts)

/-- All ways to split a character list into a prefix and a suffix, in
order of growing prefix (the candidate amounts a `.*?` consumes). -/
def starSplits : List Char → List (List Char × List Char)
  | [] => [([], [])]
  | c :: cs => ([], c :: cs) :: (starSplits cs).map (fun p => (c :: p.1, p.2))

/-- Anchored whole-string matching of a token list against a character
list: `.` consumes one non-line-terminator character, and `.*?`
consumes some prefix of non-line-terminator characters with the rest
of the tokens matching the corresponding suffix (laziness of `*?`
only affects which split a backtracking engine finds first, not
whether a match exists). -/
def rmatch : List RTok → List Char → Bool
  | [], [] => true
  | [], _ :: _ => false
  | .lit c :: ts, d :: ds => c == d && rmatch ts ds
  | .lit _ :: _, [] => false
  | .anyOne :: ts, d :: ds => !isLineTerminator d && rmatch ts ds
  | .anyOne :: _, [] => false
  | .anyStar :: ts, ds =>
      (starSplits ds).any (fun p =>
        p.1.all (fun c => !isLineTerminator c) && rmatch ts p.2)

/-- `like2RegExp(pattern).test(value)`: compile the LIKE pattern and
test the value against the anchored result. A pattern whose compiled
source falls outside the modeled regex fragment (see `parseRegex`;
no documented LIKE pattern and no theorem below produces one) is
conservatively mapped to a non-match. -/
def likeTest (pattern value : String) : Bool :=
  match parseRegex (like2RegExpSource pattern) with
  | some toks => rmatch toks value.data
  | none => false

/-- The predicate evaluator `doWhere` on a non-null clause: a
`binary_expr` dispatches on its operator after resolving each operand
(`getVal`: a column reference reads `row[table.column]` or
`row[column]` depending on the namespacing flag; a nested
`binary_expr` recurses into `doWhere`, dropping the namespacing flag
as the source call `this.doWhere(obj, row)` does; any other node
yields its `.value`, which an aggregate node does not have). Every
non-`binary_expr` clause yields `false`. Comparison operators produce
booleans; `AND` and `OR` both produce `a && b` of the resolved
operand values. -/
def doWhereExpr : Expr → Row → Bool → Value
  | .binary_expr op l r, row, ns =>
      let lv :=
        match l with
        | .column_ref t c => objGet row (if ns then t ++ "." ++ c else c)
        | .binary_expr _ _ _ => doWhereExpr l row false
        | .aggr_func _ _ => .undefined
        | .literal v => v
      let rv :=
        match r with
        | .column_ref t c => objGet row (if ns then t ++ "." ++ c else c)
        | .binary_expr _ _ _ => doWhereExpr r row false
        | .aggr_func _ _ => .undefined
        | .literal v => v
      match op with
      | "=" => .bool (jsEq lv rv)
      | "!=" => .bool (!jsEq lv rv)
      | "<>" => .bool (!jsEq lv rv)
      | "<" => .bool (jsLt lv rv)
      | "<=" => .bool (jsLe lv rv)
      | ">" => .bool (jsGt lv rv)
      | ">=" => .bool (jsGe lv rv)
      | "AND" => jsAnd lv rv
      | "OR" => jsAnd lv rv
      | "IS" => .bool (jsStrictEq lv rv)
      | "LIKE" => .bool (likeTest (jsToString rv) (jsToString lv) == true)
      | "NOT LIKE" => .bool (likeTest (jsToString rv) (jsToString lv) == false)
      | _ => .bool false
  | _, _, _ => .bool false

/-- The operand resolution `getVal` of `doWhere`, as a standalone
function (the recursion inside `doWhereExpr` inlines it). -/
def getVal (e : Expr) (row : Row) (ns : Bool) : Value :=
  match e with
  | .column_ref t c => objGet row (if ns then t ++ "." ++ c else c)
  | .binary_expr _ _ _ => doWhereExpr e row false
  | .aggr_func _ _ => .undefined
  | .literal v => v

/-- `doWhere(where, row, namespace)`: a null clause accepts every row;
otherwise evaluate the expression tree. -/
def doWhere (w : Option Expr) (row : Row) (ns : Bool) : Value :=
  match w with
  | none => .bool true
  | some e => doWhereExpr e row ns

/-- A row paired with the `used` flag the join loop maintains. -/
structure Marked where
  used : Bool
  row : Row
deriving DecidableEq, Repr

/-- The merged row `bigrow`: an empty object filled by `for..in` over
the dest row and then over the src row, so src fields override dest
fields on key collision. -/
def mergeRows (d s : Row) : Row :=
  (d ++ s).foldl (fun acc p => objSet acc p.1 p.2) ([] : Row)

/-- Inner loop of `join` over the src rows for one dest row: returns
the merged rows emitted (in src order), the src rows with updated
`used` flags, and whether the dest row matched anything. -/
def joinSrcLoop (query : Option Expr) (ns : Bool) (destRow : Row) :
    List Marked → List Row × List Marked × Bool
  | [] => ([], [], false)
  | sr :: rest =>
      let bigrow := mergeRows destRow sr.row
      let hit := truthy (doWhere query bigrow ns)
      let (emitted, rest', dUsed) := joinSrcLoop query ns destRow rest
      if hit then (bigrow :: emitted, ⟨true, sr.row⟩ :: rest', true)
      else (emitted, sr :: rest', dUsed)

/-- Outer loop of `join` over the dest rows: returns all emitted merged
rows (dest-major order) and both sides' final `used` flags. -/
def joinDestLoop (query : Option Expr) (ns : Bool) :
    List Marked → List Marked → List Row × List Marked × List Marked
  | [], srcRows => ([], [], srcRows)
  | dr :: drest, srcRows =>
      let (emitted, srcRows', dUsed) := joinSrcLoop query ns dr.row srcRows
      let (emittedRest, destRest', srcFinal) := joinDestLoop query ns drest srcRows'
      (emitted ++ emittedRest, ⟨dr.used || dUsed, dr.row⟩ :: destRest', srcFinal)

/-- `join(dest, src, query, includeAllDest, includeAllSrc, namespace)`:
nested loop emitting each merged dest×src pair that satisfies the ON
predicate, then appending the unmatched dest rows as-is when
`includeAllDest` is set and the unmatched src rows when
`includeAllSrc` is set. -/
def join (dest src : List Row) (query : Option Expr)
    (includeAllDest includeAllSrc : Bool) (ns : Bool := false) : List Row :=
  let destRows := dest.map (fun r => Marked.mk false r)
  let srcRows := src.map (fun r => Marked.mk false r)
  let (rows, destFinal, srcFinal) := joinDestLoop query ns destRows srcRows
  let rows :=
    if includeAllDest
    then rows ++ (destFinal.filter (fun m => m.used == false)).map Marked.row
    else rows
  if includeAllSrc
  then rows ++ (srcFinal.filter (fun m => m.used == false)).map Marked.row
  else rows

/-- One entry of a SELECT column list: `{expr, as}`. -/
structure SelCol where
  expr : Expr
  asName : Option String
deriving DecidableEq, Repr

/-- The `columns` field of a SELECT statement: the string `"*"` or a
list of column entries. -/
inductive Columns where
  | star
  | list (cols : List SelCol)
deriving DecidableEq, Repr

/-- One entry of a GROUP BY list; the engine reads only its `column`
field. -/
structure GroupItem where
  column : String
deriving DecidableEq, Repr

/-- Whether a column-list entry is an aggregate-function node: the
per-column test of `isAggregate` in `chooseFields`. -/
def isAggrCol (col : SelCol) : Bool :=
  match col.expr with
  | .aggr_func _ _ => true
  | _ => false

/-- The alias fallback `col.as || default`: the alias unless it is
absent or falsy (the empty string). -/
def aliasOr (a : Option String) (d : String) : String :=
  match a with
  | some s => if s == "" then d else s
  | none => d

/-- The row field flat mode copies a requested column from:
`namespace ? col.expr.table + "." + col.expr.column : col.expr.column`
(a non-column node has no such fields, so they read as `undefined` and
stringify). -/
def flatSourceKey (col : SelCol) (ns : Bool) : String :=
  match col.expr with
  | .column_ref t c => if ns then t ++ "." ++ c else c
  | _ => if ns then "undefined.undefined" else "undefined"

/-- The key under which `chooseFields` stores a requested column in
flat mode: the alias if given, else the (possibly namespaced) source
name. -/
def flatKey (col : SelCol) (ns : Bool) : String :=
  aliasOr col.asName (flatSourceKey col ns)

/-- The output name of an aggregate column: the alias if given, else
`FUNCNAME(argColumn)` upper-cased. -/
def aggrName (col : SelCol) : String :=
  aliasOr col.asName
    (match col.expr with
     | .aggr_func nm arg => jsToUpperCase nm ++ "(" ++ arg ++ ")"
     | _ => "undefined")

/-- The `groupby()` helper of aggregate mode: with no GROUP BY all rows
share group `0` (created on demand); with GROUP BY, a linear scan for
the first accumulator row whose listed group-column values all
loosely equal the input row's (both read by bare column name), else a
new empty group appended at the end. Returns the updated accumulator
and the index of the group for this row. -/
def groupbyIndex (groupby : Option (List GroupItem)) (data : List Row)
    (row : Row) : List Row × Nat :=
  match groupby with
  | none => if data.length < 1 then (data ++ [[]], 0) else (data, 0)
  | some gs =>
      match data.findIdx? (fun drow =>
          gs.all (fun g => jsEq (objGet drow g.column) (objGet row g.column))) with
      | some i => (data, i)
      | none => (data ++ [[]], data.length)

/-- One aggregate-mode column update on the group row at `index`: a
plain column reference copies `row[column]` (bare name, last write
wins); `SUM` adds `row[argColumn]` to the accumulator, initialising it
to `0` when absent; `COUNT` increments it; any other aggregate name
does nothing. -/
def aggrStep (row : Row) (data : List Row) (index : Nat) (col : SelCol) : List Row :=
  match col.expr with
  | .column_ref _ c =>
      let name := aliasOr col.asName c
      data.set index (objSet (data.getD index []) name (objGet row c))
  | .aggr_func nm arg =>
      let name := aggrName col
      match jsToUpperCase nm with
      | "SUM" =>
          let drow := data.getD index []
          let cur := objGet drow name
          let cur := if cur = .undefined then .num 0 else cur
          data.set index (objSet drow name (jsAdd cur (objGet row arg)))
      | "COUNT" =>
          let drow := data.getD index []
          let cur := objGet drow name
          let cur := if cur = .undefined then .num 0 else cur
          data.set index (objSet drow name (jsInc cur))
      | _ => data
  | _ => data

/-- `chooseFields(sqlobj, data, row, namespace)`: pushes `row`'s
projection onto `data` and returns the updated list. `columns === "*"`
passes the row through; aggregate mode (some column is an
`aggr_func`) updates the group row chosen by `groupbyIndex`, all
lookups using bare column names; flat mode builds a fresh row using
the namespaced keys, absent fields becoming `null`. -/
def chooseFields (columns : Columns) (groupby : Option (List GroupItem))
    (data : List Row) (row : Row) (ns : Bool := false) : List Row :=
  match columns with
  | .star => data ++ [row]
  | .list cols =>
      let isAggregate := cols.any isAggrCol
      if isAggregate then
        let (data, index) := groupbyIndex groupby data row
        cols.foldl (fun data col => aggrStep row data index col) data
      else
        let result := cols.foldl (fun result col =>
          let v := objGet row (flatSourceKey col ns)
          let v := if v = .undefined then .null else v
          objSet result (flatKey col ns) v) ([] : Row)
        data ++ [result]

/-- One entry of a SELECT FROM list: the table name and, from the
second entry on, the join kind string and ON predicate. -/
structure FromItem where
  table : String
  joinKind : Option String
  onClause : Option Expr
deriving DecidableEq, Repr

/-- One entry of an ORDER BY list: `{expr, type}` with `type` the
string `'ASC'` or `'DESC'`. -/
structure OrderItem where
  expr : Expr
  type : String
deriving DecidableEq, Repr

/-- The fields of a parsed SELECT statement this engine reads. -/
structure SelectObj where
  fromItems : List FromItem
  whereClause : Option Expr
  columns : Columns
  groupby : Option (List GroupItem)
  orderby : Option (List OrderItem)
  limit : Option (List Value)
deriving DecidableEq, Repr

/-- Namespacing one table's rows: each key `k` becomes `table.k`. -/
def nsRow (t : String) (r : Row) : Row :=
  r.foldl (fun acc p => objSet acc (t ++ "." ++ p.1) p.2) ([] : Row)

/-- The left fold of `doSelect`'s while loop: repeatedly join the
accumulated rows with the next table's rows according to that table's
declared join kind, an unrecognised kind leaving the accumulated rows
unchanged (the switch has no default case) while the table is still
discarded. -/
def joinAll (ns : Bool) : List Row → List (FromItem × List Row) → List Row
  | acc, [] => acc
  | acc, (fi, rows) :: rest =>
      let acc' :=
        match fi.joinKind with
        | some "INNER JOIN" => join acc rows fi.onClause false false ns
        | some "LEFT JOIN" => join acc rows fi.onClause true false ns
        | some "RIGHT JOIN" => join acc rows fi.onClause false true ns
        | some "FULL JOIN" => join acc rows fi.onClause true true ns
        | _ => acc
      joinAll ns acc' rest

/-- Steps 1–3 of `doSelect` once the loads resolved: namespace each
table's rows iff more than one FROM table, then fold the joins
left-to-right. `tableset` holds each table's rows in load order. -/
def selectJoined (sq : SelectObj) (tableset : List (List Row)) : List Row :=
  let ns := decide (sq.fromItems.length > 1)
  let tables := (sq.fromItems.zip tableset).map
    (fun p => (p.1, if ns then p.2.map (nsRow p.1.table) else p.2))
  match tables with
  | [] => []
  | t0 :: rest => joinAll ns t0.2 rest

/-- Step 4 of `doSelect`: filter the joined rows by the WHERE clause. -/
def selectFiltered (sq : SelectObj) (tableset : List (List Row)) : List Row :=
  let ns := decide (sq.fromItems.length > 1)
  (selectJoined sq tableset).filter (fun row => truthy (doWhere sq.whereClause row ns))

/-- The ORDER BY comparator of `doSelect`: walk the sort keys; a key
that is not a plain column reference throws (only when the comparator
is actually invoked); otherwise compare the two rows' values at the
(possibly namespaced) column, descending keys inverted, ties falling
through to the next key. -/
def orderCmp (ns : Bool) : List OrderItem → Row → Row → Except String Int
  | [], _, _ => .ok 0
  | o :: rest, a, b =>
      match o.expr with
      | .column_ref t c =>
          let column := if ns then t ++ "." ++ c else c
          if jsGt (objGet a column) (objGet b column) then
            .ok (if o.type == "ASC" then 1 else -1)
          else if jsLt (objGet a column) (objGet b column) then
            .ok (if o.type == "ASC" then -1 else 1)
          else orderCmp ns rest a b
      | _ => .error "ORDER BY only supported for columns, aggregates are not supported"

/-- Insert a row into an already-sorted accumulator, placing it after
every row it does not compare strictly below (so the sort is stable);
a comparator error aborts the sort. -/
def insertSorted (cmp : Row → Row → Except String Int) (x : Row) :
    List Row → Except String (List Row)
  | [] => .ok [x]
  | y :: ys =>
      match cmp x y with
      | .error e => .error e
      | .ok c =>
          if c < 0 then .ok (x :: y :: ys)
          else
            match insertSorted cmp x ys with
            | .error e => .error e
            | .ok t => .ok (y :: t)

/-- Stable sort by an exception-throwing comparator, modelling
`Array.prototype.sort` (required stable): a list of fewer than two
rows invokes the comparator zero times; otherwise the rows are
rearranged into comparator order, equal rows keeping their relative
input order, and the first comparator throw aborts. -/
def sortRowsAux (cmp : Row → Row → Except String Int) :
    List Row → List Row → Except String (List Row)
  | acc, [] => .ok acc
  | acc, x :: rest =>
      match insertSorted cmp x acc with
      | .error e => .error e
      | .ok acc' => sortRowsAux cmp acc' rest

/-- Entry point of the stable sort model. -/
def sortRows (cmp : Row → Row → Except String Int) (l : List Row) :
    Except String (List Row) :=
  sortRowsAux cmp [] l

/-- Step 5 of `doSelect`: sort the filtered rows when an ORDER BY list
is present. -/
def selectSorted (sq : SelectObj) (tableset : List (List Row)) :
    Except String (List Row) :=
  let ns := decide (sq.fromItems.length > 1)
  match sq.orderby with
  | none => .ok (selectFiltered sq tableset)
  | some ob => sortRows (orderCmp ns ob) (selectFiltered sq tableset)

/-- `ToIntegerOrInfinity` of a slice argument: `NaN` (a non-numeric
`parseInt` result) becomes `0`. -/
def sliceArg : Value → Int
  | .num n => n
  | _ => 0

/-- `Array.prototype.slice(s, e)` with integer arguments: clamp both
endpoints into `[0, length]`, negative values counting from the end,
and take the elements at positions `[s, e)`. -/
def jsSlice (l : List Row) (s e : Int) : List Row :=
  let len : Int := l.length
  let k := if s < 0 then max (len + s) 0 else min s len
  let fin := if e < 0 then max (len + e) 0 else min e len
  (l.drop k.toNat).take (fin - k).toNat

/-- Steps 6–7 of `doSelect`: project/aggregate the ordered rows with
`chooseFields`, then apply the LIMIT clause: a present clause that is
not exactly two entries throws, otherwise the result is sliced to
`[offset, offset + count)`. -/
def selectProjectLimit (sq : SelectObj) (rows : List Row) :
    Except String (List Row) :=
  let ns := decide (sq.fromItems.length > 1)
  let result := rows.foldl (fun data row =>
    chooseFields sq.columns sq.groupby data row ns) ([] : List Row)
  match sq.limit with
  | none => .ok result
  | some ll =>
      if ll.length ≠ 2 then
        .error "Invalid LIMIT expression: Use LIMIT [offset,] number"
      else
        let offs := sliceArg (jsParseInt (ll.getD 0 .undefined))
        let len := sliceArg (jsParseInt (ll.getD 1 .undefined))
        .ok (jsSlice result offs (offs + len))

/-- The whole synchronous body of `doSelect`'s `then` callback, from a
resolved tableset to the result rows or the first thrown error. -/
def selectRun (sq : SelectObj) (tableset : List (List Row)) :
    Except String (List Row) :=
  match selectSorted sq tableset with
  | .error e => .error e
  | .ok sorted => selectProjectLimit sq sorted

/-- The parsed type node of one CREATE TABLE column:
`col.type.type` and `col.type.args`. -/
structure TypeNode where
  type : String
  args : List Value
deriving DecidableEq, Repr

/-- One parsed CREATE TABLE column definition. -/
structure ColDef where
  name : String
  type : TypeNode
deriving DecidableEq, Repr

/-- The column descriptor `doCreate` builds for the backend `create`
call; fields the switch does not assign stay absent. -/
structure ColumnOut where
  name : String
  index : Nat
  type : Option String := none
  length : Option Value := none
  pad : Option String := none
deriving DecidableEq, Repr

/-- `col.type.args[0]` (`undefined` when absent). -/
def argGet (args : List Value) (i : Nat) : Value :=
  args.getD i .undefined

/-- The switch of `doCreate` on one column: map the upper-cased type
token to a normalized descriptor; INTERVAL/ARRAY/MULTISET/XML throws
`'<TYPE> not yet supported'`; a token matching no case leaves the
descriptor with only the name and ordinal index. -/
def mapColumn (col : ColDef) (n : Nat) : Except String ColumnOut :=
  let t := jsToUpperCase col.type.type
  if t == "CHAR" || t == "CHARACTER" then
    .ok { name := col.name, index := n, type := some "string", pad := some " ",
          length := some (jsParseInt (argGet col.type.args 0)) }
  else if t == "VARCHAR" then
    .ok { name := col.name, index := n, type := some "string",
          length := some (jsParseInt (argGet col.type.args 0)) }
  else if t == "BINARY" || t == "VARBINARY" then
    .ok { name := col.name, index := n, type := some "binary",
          length := some (jsParseInt (argGet col.type.args 0)) }
  else if t == "BOOLEAN" then
    .ok { name := col.name, index := n, type := some "boolean" }
  else if t == "INTEGER" || t == "SMALLINT" || t == "BIGINT" then
    .ok { name := col.name, index := n, type := some "integer" }
  else if t == "DECIMAL" || t == "NUMERIC" || t == "FLOAT" || t == "REAL"
      || t == "DOUBLE" then
    .ok { name := col.name, index := n, type := some "float" }
  else if t == "DATE" || t == "TIME" || t == "TIMESTAMP" then
    .ok { name := col.name, index := n, type := some "date" }
  else if t == "INTERVAL" || t == "ARRAY" || t == "MULTISET" || t == "XML" then
    .error (t ++ " not yet supported")
  else if t == "TEXT" then
    .ok { name := col.name, index := n, type := some "string" }
  else
    .ok { name := col.name, index := n }

/-- The column loop of `doCreate`, assigning ordinal indices from `n`:
the first throw aborts the whole statement. -/
def mapColumns : List ColDef → Nat → Except String (List ColumnOut)
  | [], _ => .ok []
  | c :: rest, n =>
      match mapColumn c n with
      | .error e => .error e
      | .ok col =>
          match mapColumns rest (n + 1) with
          | .error e => .error e
          | .ok cols => .ok (col :: cols)

/-- The fields of a parsed CREATE TABLE statement this engine reads
(`sqlobj.name.table` and `sqlobj.columns`). -/
structure CreateObj where
  nameTable : String
  columns : List ColDef
deriving DecidableEq, Repr

/-- The synchronous part of `doCreate`: the argument pair this
statement passes to the backend `create` call, or the error thrown
before any such call is issued. -/
def doCreateCall (sq : CreateObj) : Except String (String × List ColumnOut) :=
  (mapColumns sq.columns 0).map (fun cols => (sq.nameTable, cols))

/-- How a JavaScript promise is eventually observed by its caller:
resolved with a result, rejected with an error value, or forever
pending (settlement code never runs). -/
inductive Outcome (α : Type) where
  | resolved (a : α)
  | rejected (e : String)
  | pending
deriving DecidableEq, Repr

/-- `Promise.all` over the backend `load` results: the list of tables,
or the first rejection. -/
def promiseAll {α : Type} : List (Except String α) → Except String (List α)
  | [] => .ok []
  | .error e :: _ => .error e
  | .ok a :: rest => (promiseAll rest).map (fun l => a :: l)

/-- The promise returned by `doSelect`, given each `load` call's
result: the executor attaches only a `then` to `Promise.all`, so a
load rejection — and likewise an error thrown inside the `then`
callback — leaves the executor's `resolve`/`reject` forever uncalled
and the promise pending. -/
def doSelectOutcome (sq : SelectObj) (loads : List (Except String (List Row))) :
    Outcome (List Row) :=
  match promiseAll loads with
  | .error _ => .pending
  | .ok tableset =>
      match selectRun sq tableset with
      | .ok rows => .resolved rows
      | .error _ => .pending

/-- The promise returned by `doCreate`, given the backend `create`
call's result: a throw inside the executor rejects the promise, but a
rejection of `create` itself is never caught (`then` only), leaving
the promise pending. -/
def doCreateOutcome (sq : CreateObj) (createResult : Except String Bool) :
    Outcome Bool :=
  match doCreateCall sq with
  | .error e => .rejected e
  | .ok _ =>
      match createResult with
      | .ok b => .resolved b
      | .error _ => .pending

/-- `runSQL`'s wiring `p.then(x => resolve(x)).catch(e => reject(e))`
from a routed statement's promise to the promise `execute` returns:
resolution and rejection pass through, a pending promise stays
pending. -/
def runSQLWire {α : Type} : Outcome α → Outcome α
  | .resolved a => .resolved a
  | .rejected e => .rejected e
  | .pending => .pending

/-- The promise `execute(sql)` returns for a SELECT statement, as a
function of the backend `load` results. -/
def executeSelectOutcome (sq : SelectObj)
    (loads : List (Except String (List Row))) : Outcome (List Row) :=
  runSQLWire (doSelectOutcome sq loads)

/-- The promise `execute(sql)` returns for a CREATE TABLE statement,
as a function of the backend `create` result. -/
def executeCreateOutcome (sq : CreateObj) (createResult : Except String Bool) :
    Outcome Bool :=
  runSQLWire (doCreateOutcome sq createResult)

/-- The ON predicate `dest.id = src.id` of the join examples. -/
def destSrcOnPred : Expr :=
  .binary_expr "=" (.column_ref "dest" "id") (.column_ref "src" "id")

/-- Namespaced dest table `[{dest.id:1}]`. -/
def joinDestTable : List Row := [[("dest.id", .num 1)]]

/-- Namespaced dest table `[{dest.id:1}, {dest.id:2}]`. -/
def joinDestTable2 : List Row := [[("dest.id", .num 1)], [("dest.id", .num 2)]]

/-- Namespaced src table `[{src.id:1, src.x:2}]`. -/
def joinSrcTable : List Row := [[("src.id", .num 1), ("src.x", .num 2)]]

/-- The column list `g, SUM(v) AS s` of the aggregation examples. -/
def sumGroupColumns : Columns :=
  .list [⟨.column_ref "" "g", none⟩, ⟨.aggr_func "SUM" "v", some "s"⟩]

/-- The rows `[{g:"a",v:2}, {g:"a",v:3}, {g:"b",v:5}]` of the
aggregation example. -/
def sumGroupRows : List Row :=
  [[("g", .str "a"), ("v", .num 2)],
   [("g", .str "a"), ("v", .num 3)],
   [("g", .str "b"), ("v", .num 5)]]

/-- A five-row single-column table `[{a:1}..{a:5}]`. -/
def fiveRowTable : List Row :=
  [[("a", .num 1)], [("a", .num 2)], [("a", .num 3)], [("a", .num 4)], [("a", .num 5)]]

/-- SELECT * FROM t ORDER BY a ASC LIMIT 1,2. -/
def orderedLimitSelect : SelectObj where
  fromItems := [⟨"t", none, none⟩]
  whereClause := none
  columns := .star
  groupby := none
  orderby := some [⟨.column_ref "" "a", "ASC"⟩]
  limit := some [.num 1, .num 2]

/-- SELECT * FROM t with a malformed one-entry LIMIT clause. -/
def badLimitSelect : SelectObj where
  fromItems := [⟨"t", none, none⟩]
  whereClause := none
  columns := .star
  groupby := none
  orderby := none
  limit := some [.num 3]

/-- SELECT * FROM t ORDER BY SUM(a) ASC: the sort key is an aggregate,
not a plain column reference. -/
def aggregateOrderSelect : SelectObj where
  fromItems := [⟨"t", none, none⟩]
  whereClause := none
  columns := .star
  groupby := none
  orderby := some [⟨.aggr_func "SUM" "a", "ASC"⟩]
  limit := none

/-- SELECT * FROM t with no WHERE, ORDER BY, GROUP BY or LIMIT. -/
def plainSelect : SelectObj where
  fromItems := [⟨"t", none, none⟩]
  whereClause := none
  columns := .star
  groupby := none
  orderby := none
  limit := none

/-- A row with namespaced keys, as a multi-table SELECT produces:
`{t.g:"a", t.v:2}`. -/
def namespacedAggRow : Row := [("t.g", .str "a"), ("t.v", .num 2)]

/-- CREATE TABLE t (a INTEGER). -/
def integerCreate : CreateObj := ⟨"t", [⟨"a", ⟨"INTEGER", []⟩⟩]⟩

/-- A column declared with type token `array` (lower-case, exercising
the case-insensitive match). -/
def arrayColumn : ColDef := ⟨"a", ⟨"array", []⟩⟩

/-- CREATE TABLE t (a array). -/
def arrayCreate : CreateObj := ⟨"t", [arrayColumn]⟩

/-- A column declared with the unrecognized type token BLOB. -/
def blobColumn : ColDef := ⟨"a", ⟨"BLOB", []⟩⟩

/-- The four type tokens whose case in the `doCreate` switch throws. -/
def unsupportedTypes : List String := ["INTERVAL", "ARRAY", "MULTISET", "XML"]

/-- Every type token the `doCreate` switch has a case for (mapping
cases plus the throwing ones). -/
def recognizedTypes : List String :=
  ["CHAR", "CHARACTER", "VARCHAR", "BINARY", "VARBINARY", "BOOLEAN",
   "INTEGER", "SMALLINT", "BIGINT", "DECIMAL", "NUMERIC", "FLOAT", "REAL",
   "DOUBLE", "DATE", "TIME", "TIMESTAMP", "INTERVAL", "ARRAY", "MULTISET",
   "XML", "TEXT"]

/-- Whether a column's type token hits the throwing case of the
switch. -/
def isUnsupportedType (c : ColDef) : Prop :=
  jsToUpperCase c.type.type ∈ unsupportedTypes

instance (c : ColDef) : Decidable (isUnsupportedType c) :=
  inferInstanceAs (Decidable (_ ∈ _))

/-- The error message of the ORDER BY comparator's throw. -/
def orderByErr : String :=
  "ORDER BY only supported for columns, aggregates are not supported"

/-- The error message of the LIMIT arity throw. -/
def invalidLimitErr : String :=
  "Invalid LIMIT expression: Use LIMIT [offset,] number"

/-- Claim C1: for every statement whose execution issues a backend
call (load, store, remove, create, or drop) that rejects with an error
value e, the promise returned by the top-level execute call rejects
with that same error value e. This is refuted by the code: `doSelect`
attaches no rejection handler to `Promise.all` of its loads and
`doCreate` attaches none to `create`, so a rejected `load` (here with
the value "boom") or a rejected `create` leaves the promise `execute`
returns forever pending instead of rejected with "boom". -/
theorem claim_C1 :
    executeSelectOutcome plainSelect [.error "boom"] = .pending
  ∧ executeCreateOutcome integerCreate (.error "boom") = .pending
  ∧ executeSelectOutcome plainSelect [.error "boom"] ≠ .rejected "boom"
  ∧ executeCreateOutcome integerCreate (.error "boom") ≠ .rejected "boom" := by
  refine ⟨rfl, rfl, ?_, ?_⟩ <;> decide

/-- Claim C2: for every row and every binary expression node,
evaluating the predicate with operator OR returns exactly the same
result as evaluating it with operator AND on the same operands: both
return the conjunction `a && b` of the two resolved operand values. -/
theorem claim_C2 (l r : Expr) (row : Row) (ns : Bool) :
    doWhere (some (.binary_expr "OR" l r)) row ns
      = doWhere (some (.binary_expr "AND" l r)) row ns
  ∧ doWhere (some (.binary_expr "OR" l r)) row ns
      = jsAnd (getVal l row ns) (getVal r row ns) :=
  ⟨rfl, rfl⟩

/-- Claim C3: the join merges each dest-src pair into one combined row
with src fields overriding dest fields, emits the pair iff the ON
predicate holds, and appends unmatched dest rows as-is when
includeAllDest is set: with namespaced rows dest=`[{dest.id:1}]`,
src=`[{src.id:1, src.x:2}]` and predicate `dest.id=src.id`, INNER JOIN
yields exactly one row `{dest.id:1, src.id:1, src.x:2}`, and LEFT JOIN
with the additional unmatched dest row `{dest.id:2}` additionally
yields `{dest.id:2}` alone, with no src keys. -/
theorem claim_C3 :
    join joinDestTable joinSrcTable (some destSrcOnPred) false false true
      = [[("dest.id", .num 1), ("src.id", .num 1), ("src.x", .num 2)]]
  ∧ join joinDestTable2 joinSrcTable (some destSrcOnPred) true false true
      = [[("dest.id", .num 1), ("src.id", .num 1), ("src.x", .num 2)],
         [("dest.id", .num 2)]] := by
  decide

/-- Claim C4: in aggregate mode with GROUP BY, rows are assigned to
groups by equality over the listed group-column values (first matching
group, else a new group appended), SUM accumulates numeric addition
per group starting from 0, and group order follows first-seen order:
rows `[{g:"a",v:2},{g:"a",v:3},{g:"b",v:5}]` grouped by g with
`SUM(v) AS s` produce exactly `[{g:"a", s:5}, {g:"b", s:5}]`. -/
theorem claim_C4 :
    sumGroupRows.foldl
        (fun data row => chooseFields sumGroupColumns (some [⟨"g"⟩]) data row false)
        []
      = [[("g", .str "a"), ("s", .num 5)],
         [("g", .str "b"), ("s", .num 5)]] := by
  decide

/-- Claim C9: in aggregate mode, all column lookups (group matching
and plain column copying) use the bare column name, never the
namespaced key, whatever the namespacing flag is — `chooseFields` in
aggregate mode is independent of the flag — so over namespaced rows
such as `{t.g:"a", t.v:2}` those lookups read absent fields: the
copied group column becomes `undefined` and SUM accumulates onto
`NaN`. -/
theorem claim_C9 (cols : List SelCol) (groupby : Option (List GroupItem))
    (data : List Row) (row : Row) (ns : Bool)
    (hagg : cols.any isAggrCol = true) :
    chooseFields (.list cols) groupby data row ns
      = chooseFields (.list cols) groupby data row false
  ∧ chooseFields sumGroupColumns (some [⟨"g"⟩]) [] namespacedAggRow true
      = [[("g", .undefined), ("s", .nan)]] := by
  constructor
  · simp only [chooseFields, hagg, if_true]
  · decide

/-- Witness for C9 at a concrete aggregate column list. -/
theorem claim_C9_witness :
    (sumGroupColumns = .list [⟨.column_ref "" "g", none⟩, ⟨.aggr_func "SUM" "v", some "s"⟩])
  ∧ ([(⟨.column_ref "" "g", none⟩ : SelCol), ⟨.aggr_func "SUM" "v", some "s"⟩].any isAggrCol = true)
  ∧ (chooseFields (.list [⟨.column_ref "" "g", none⟩, ⟨.aggr_func "SUM" "v", some "s"⟩])
        (some [⟨"g"⟩]) [] namespacedAggRow true
      = chooseFields (.list [⟨.column_ref "" "g", none⟩, ⟨.aggr_func "SUM" "v", some "s"⟩])
        (some [⟨"g"⟩]) [] namespacedAggRow false) :=
  ⟨rfl, by decide,
    (claim_C9 [⟨.column_ref "" "g", none⟩, ⟨.aggr_func "SUM" "v", some "s"⟩]
      (some [⟨"g"⟩]) [] namespacedAggRow true (by decide)).1⟩

/-- Claim C10: a CREATE TABLE column whose type token matches neither
the mapping cases nor the unsupported list raises no error: the switch
falls through and the descriptor passed on towards the backend create
call carries only the column's name and ordinal index, with no type,
length, or pad field. -/
theorem claim_C10 (c : ColDef) (n : Nat)
    (h : jsToUpperCase c.type.type ∉ recognizedTypes) :
    mapColumn c n = .ok { name := c.name, index := n } := by
  have hne : ∀ s ∈ recognizedTypes, (jsToUpperCase c.type.type == s) = false := by
    intro s hs
    exact beq_eq_false_iff_ne.mpr (fun e => h (e ▸ hs))
  simp [mapColumn,
    hne "CHAR" (by decide), hne "CHARACTER" (by decide), hne "VARCHAR" (by decide),
    hne "BINARY" (by decide), hne "VARBINARY" (by decide), hne "BOOLEAN" (by decide),
    hne "INTEGER" (by decide), hne "SMALLINT" (by decide), hne "BIGINT" (by decide),
    hne "DECIMAL" (by decide), hne "NUMERIC" (by decide), hne "FLOAT" (by decide),
    hne "REAL" (by decide), hne "DOUBLE" (by decide), hne "DATE" (by decide),
    hne "TIME" (by decide), hne "TIMESTAMP" (by decide), hne "INTERVAL" (by decide),
    hne "ARRAY" (by decide), hne "MULTISET" (by decide), hne "XML" (by decide),
    hne "TEXT" (by decide)]

/-- Witness for C10: the unrecognized type token BLOB. -/
theorem claim_C10_witness :
    (jsToUpperCase blobColumn.type.type ∉ recognizedTypes)
  ∧ mapColumn blobColumn 0 = .ok { name := blobColumn.name, index := 0 } :=
  ⟨by decide, claim_C10 blobColumn 0 (by decide)⟩

/-- A column whose type token hits the throwing switch case makes
`mapColumn` throw the corresponding message. -/
theorem mapColumn_unsupported (c : ColDef) (n : Nat) (h : isUnsupportedType c) :
    mapColumn c n = .error (jsToUpperCase c.type.type ++ " not yet supported") := by
  have h' := h
  simp only [isUnsupportedType, unsupportedTypes, List.mem_cons,
    List.not_mem_nil, or_false] at h'
  rcases h' with h' | h' | h' | h' <;>
    · simp only [mapColumn, h']
      rfl

/-- A column whose type token misses the throwing switch case makes
`mapColumn` return some descriptor. -/
theorem mapColumn_ok_of_supported (c : ColDef) (n : Nat)
    (h : ¬ isUnsupportedType c) :
    ∃ col, mapColumn c n = .ok col := by
  have hmem : ∀ s ∈ unsupportedTypes, (jsToUpperCase c.type.type == s) = false := by
    intro s hs
    refine beq_eq_false_iff_ne.mpr (fun e => h ?_)
    simpa only [isUnsupportedType, e] using hs
  simp only [mapColumn, hmem "INTERVAL" (by decide), hmem "ARRAY" (by decide),
    hmem "MULTISET" (by decide), hmem "XML" (by decide), Bool.or_false,
    Bool.false_or]
  split_ifs with h1 h2 h3 h4 h5 h6 h7 h8 h9 <;>
    first
      | exact ⟨_, rfl⟩
      | exact absurd h8 (by decide)

/-- The column loop of `doCreate` throws the message of the first
unsupported column when the list contains one. -/
theorem mapColumns_unsupported :
    ∀ (cols : List ColDef) (n : Nat), (∃ c ∈ cols, isUnsupportedType c) →
      ∃ t ∈ unsupportedTypes, mapColumns cols n = .error (t ++ " not yet supported") := by
  intro cols
  induction cols with
  | nil =>
      rintro n ⟨c, hc, _⟩
      cases hc
  | cons c rest ih =>
      rintro n ⟨c', hc', hbad⟩
      by_cases hc : isUnsupportedType c
      · exact ⟨jsToUpperCase c.type.type, hc,
          by simp only [mapColumns, mapColumn_unsupported c n hc]⟩
      · have hmem : c' ∈ rest := by
          rcases List.mem_cons.mp hc' with rfl | hmem
          · exact absurd hbad hc
          · exact hmem
        obtain ⟨t, ht, herr⟩ := ih (n + 1) ⟨c', hmem, hbad⟩
        obtain ⟨col, hok⟩ := mapColumn_ok_of_supported c n hc
        exact ⟨t, ht, by simp only [mapColumns, hok, herr]⟩

/-- Claim C8: for every CREATE TABLE statement in which some column's
type token is INTERVAL, ARRAY, MULTISET, or XML (case-insensitive),
the statement fails with the unsupported-type error and the backend
create primitive is never called: the column mapping throws before
producing the argument of the `create` call (so no call argument
exists), and the promise `execute` returns rejects with that error
whatever the backend would have answered. -/
theorem claim_C8 (sq : CreateObj) (h : ∃ c ∈ sq.columns, isUnsupportedType c) :
    ∃ t ∈ unsupportedTypes,
      doCreateCall sq = .error (t ++ " not yet supported")
      ∧ ∀ r, executeCreateOutcome sq r = .rejected (t ++ " not yet supported") := by
  obtain ⟨t, ht, herr⟩ := mapColumns_unsupported sq.columns 0 h
  have hcall : doCreateCall sq = .error (t ++ " not yet supported") := by
    simp only [doCreateCall, herr]
    rfl
  refine ⟨t, ht, hcall, fun r => ?_⟩
  simp only [executeCreateOutcome, doCreateOutcome, hcall]
  rfl

/-- Witness for C8: CREATE TABLE t (a array). -/
theorem claim_C8_witness :
    (∃ c ∈ arrayCreate.columns, isUnsupportedType c)
  ∧ ∃ t ∈ unsupportedTypes,
      doCreateCall arrayCreate = .error (t ++ " not yet supported")
      ∧ ∀ r, executeCreateOutcome arrayCreate r
          = .rejected (t ++ " not yet supported") :=
  ⟨⟨arrayColumn, by decide, by decide⟩,
    claim_C8 arrayCreate ⟨arrayColumn, by decide, by decide⟩⟩

/-- The ORDER BY comparator throws on every invocation when the first
sort key is not a plain column reference. -/
theorem orderCmp_error (ns : Bool) (o : OrderItem) (rest : List OrderItem)
    (h : ∀ t c, o.expr ≠ .column_ref t c) (a b : Row) :
    orderCmp ns (o :: rest) a b = .error orderByErr := by
  obtain ⟨e, ty⟩ := o
  cases e with
  | column_ref t c => exact absurd rfl (h t c)
  | binary_expr op l r => rfl
  | aggr_func nm arg => rfl
  | literal v => rfl

/-- Sorting fewer than two rows never invokes the comparator and
returns the rows unchanged. -/
theorem sortRows_short (cmp : Row → Row → Except String Int) (l : List Row)
    (h : l.length ≤ 1) : sortRows cmp l = .ok l := by
  match l with
  | [] => rfl
  | [x] => rfl
  | x :: y :: rest => simp at h

/-- Sorting at least two rows with a comparator that always throws
propagates the comparator's error. -/
theorem sortRows_cmpError (cmp : Row → Row → Except String Int) (m : String)
    (hcmp : ∀ a b, cmp a b = .error m) (l : List Row) (h : 2 ≤ l.length) :
    sortRows cmp l = .error m := by
  match l with
  | [] => simp at h
  | [x] => simp at h
  | x :: y :: rest =>
      show sortRowsAux cmp [] (x :: y :: rest) = .error m
      simp only [sortRowsAux, insertSorted, hcmp y x]

/-- Claim C5, amended: the check that every ORDER BY key is a plain
column reference lives inside the sort comparator, so with a
non-column first sort key the OrderByUnsupported error is thrown iff
the comparator actually runs: the statement processing fails with the
error when at least two rows survive the WHERE filter, and with zero
or one surviving rows the sort succeeds untouched and no such error
arises. -/
theorem claim_C5 (sq : SelectObj) (ts : List (List Row)) (o : OrderItem)
    (rest : List OrderItem) (hob : sq.orderby = some (o :: rest))
    (hkey : ∀ t c, o.expr ≠ .column_ref t c) :
    (2 ≤ (selectFiltered sq ts).length → selectRun sq ts = .error orderByErr)
  ∧ ((selectFiltered sq ts).length ≤ 1 →
      selectSorted sq ts = .ok (selectFiltered sq ts)) := by
  constructor
  · intro h2
    have hs : selectSorted sq ts = .error orderByErr := by
      simp only [selectSorted, hob]
      exact sortRows_cmpError _ _ (fun a b => orderCmp_error _ o rest hkey a b) _ h2
    simp only [selectRun, hs]
  · intro h1
    simp only [selectSorted, hob]
    exact sortRows_short _ _ h1

/-- Counterexample to claim C5 as stated: a SELECT whose ORDER BY key
is the aggregate SUM(a) — not a plain column reference — over a table
whose single row survives the WHERE filter does not fail: the sort
never invokes its comparator, so no OrderByUnsupported error is
raised and the statement produces its result rows. -/
theorem claim_C5_counterexample :
    aggregateOrderSelect.orderby = some [⟨.aggr_func "SUM" "a", "ASC"⟩]
  ∧ selectRun aggregateOrderSelect [[[("a", .num 1)]]] = .ok [[("a", .num 1)]] := by
  constructor
  · rfl
  · decide

/-- Witness for C5 at a concrete SELECT: with five surviving rows the
aggregate sort key makes the run fail with the OrderByUnsupported
error. -/
theorem claim_C5_witness :
    2 ≤ (selectFiltered aggregateOrderSelect [fiveRowTable]).length
  ∧ selectRun aggregateOrderSelect [fiveRowTable] = .error orderByErr :=
  ⟨by decide,
    (claim_C5 aggregateOrderSelect [fiveRowTable] ⟨.aggr_func "SUM" "a", "ASC"⟩ []
      rfl (fun t c h => nomatch h)).1 (by decide)⟩

/-- Claim C6: for every SELECT with a LIMIT clause, if the clause is
not exactly a two-element offset/count list then the statement
processing (here: whenever the stages before the LIMIT check raise no
error, which the sort hypothesis expresses) fails with the
InvalidLimit error; otherwise the projected result is sliced to
positions offset..offset+count: LIMIT 1,2 on the five-row ordered
result returns exactly the rows at 0-indexed positions 1 and 2, in
order. -/
theorem claim_C6 (sq : SelectObj) (ts : List (List Row)) (ll : List Value)
    (sorted : List Row) (hl : sq.limit = some ll) (hlen : ll.length ≠ 2)
    (hsort : selectSorted sq ts = .ok sorted) :
    selectRun sq ts = .error invalidLimitErr
  ∧ selectRun orderedLimitSelect [fiveRowTable]
      = .ok [[("a", .num 2)], [("a", .num 3)]] := by
  constructor
  · simp only [selectRun, hsort, selectProjectLimit, hl, if_pos hlen, invalidLimitErr]
  · decide

/-- Witness for C6: a one-entry LIMIT clause fails with the
InvalidLimit error (and the well-formed LIMIT 1,2 slice of the
five-row result). -/
theorem claim_C6_witness :
    badLimitSelect.limit = some [.num 3]
  ∧ ([Value.num 3].length ≠ 2)
  ∧ selectRun badLimitSelect [fiveRowTable] = .error invalidLimitErr
  ∧ selectRun orderedLimitSelect [fiveRowTable]
      = .ok [[("a", .num 2)], [("a", .num 3)]] :=
  ⟨rfl, by decide,
    claim_C6 badLimitSelect [fiveRowTable] [.num 3] fiveRowTable rfl
      (by decide) (by decide)⟩

/-- A token list of plain literals matches exactly the corresponding
character list. -/
theorem rmatch_lits_iff (cs : List Char) :
    ∀ ds : List Char, rmatch (cs.map RTok.lit) ds = true ↔ ds = cs := by
  induction cs with
  | nil =>
      intro ds
      cases ds <;> simp [rmatch]
  | cons c cs ih =>
      intro ds
      cases ds with
      | nil => simp [rmatch]
      | cons d ds =>
          simp only [List.map_cons, rmatch, Bool.and_eq_true, beq_iff_eq,
            List.cons.injEq, ih ds]
          constructor
          · rintro ⟨rfl, rfl⟩
            exact ⟨rfl, rfl⟩
          · rintro ⟨rfl, rfl⟩
            exact ⟨rfl, rfl⟩

/-- A pair lies in `starSplits ds` exactly when it splits `ds` into
prefix and suffix. -/
theorem starSplits_mem (ds : List Char) :
    ∀ xs ys : List Char, (xs, ys) ∈ starSplits ds ↔ ds = xs ++ ys := by
  induction ds with
  | nil =>
      intro xs ys
      constructor
      · intro h
        simp only [starSplits, List.mem_singleton, Prod.mk.injEq] at h
        obtain ⟨rfl, rfl⟩ := h
        rfl
      · intro h
        rcases List.append_eq_nil.mp h.symm with ⟨rfl, rfl⟩
        simp [starSplits]
  | cons c cs ih =>
      intro xs ys
      constructor
      · intro h
        simp only [starSplits, List.mem_cons, List.mem_map, Prod.mk.injEq] at h
        rcases h with ⟨rfl, rfl⟩ | ⟨p, hp, rfl, rfl⟩
        · rfl
        · rw [List.cons_append, (ih p.1 p.2).mp hp]
      · intro h
        match xs, h with
        | [], h =>
            rw [List.nil_append] at h
            rw [← h]
            exact List.mem_cons_self _ _
        | x :: xs', h =>
            rw [List.cons_append, List.cons.injEq] at h
            obtain ⟨rfl, h2⟩ := h
            simp only [starSplits, List.mem_cons, List.mem_map, Prod.mk.injEq]
            exact Or.inr ⟨(xs', ys), (ih xs' ys).mpr h2, rfl, rfl⟩

/-- The token tail `b` `.` (a literal then any-one) matches exactly
the two-character lists starting with that literal whose second
character is not a line terminator. -/
theorem rmatch_litOne_iff (b : Char) (ys : List Char) :
    rmatch [.lit b, .anyOne] ys = true
      ↔ ∃ c, ys = [b, c] ∧ isLineTerminator c = false := by
  match ys with
  | [] => simp [rmatch]
  | [y] => simp [rmatch]
  | [y, z] =>
      simp only [rmatch, Bool.and_eq_true, beq_iff_eq, Bool.not_eq_true',
        and_true]
      constructor
      · rintro ⟨rfl, hz⟩
        exact ⟨z, rfl, hz⟩
      · rintro ⟨c, h, hc⟩
        simp only [List.cons.injEq, and_true] at h
        obtain ⟨rfl, rfl⟩ := h
        exact ⟨rfl, hc⟩
  | y :: z :: w :: rest =>
      simp [rmatch]

/-- The token list compiled from the LIKE pattern `a%b_` matches
exactly the strings of the form `a`, then any characters other than
line terminators, then `b`, then exactly one non-line-terminator
character. -/
theorem rmatch_abPattern (cs : List Char) :
    rmatch [.lit 'a', .anyStar, .lit 'b', .anyOne] cs = true
      ↔ ∃ u c, cs = 'a' :: (u ++ ('b' :: [c]))
          ∧ (∀ x ∈ u, isLineTerminator x = false)
          ∧ isLineTerminator c = false := by
  cases cs with
  | nil =>
      simp [rmatch]
  | cons d ds =>
      simp only [rmatch, Bool.and_eq_true, beq_iff_eq, List.any_eq_true,
        List.all_eq_true, Bool.not_eq_true']
      constructor
      · rintro ⟨rfl, ⟨p1, p2⟩, hp, hall, hm⟩
        obtain ⟨c, rfl, hc⟩ := (rmatch_litOne_iff 'b' p2).mp hm
        refine ⟨p1, c, ?_, hall, hc⟩
        rw [(starSplits_mem ds p1 _).mp hp]
      · rintro ⟨u, c, hc, hall, hc2⟩
        rw [List.cons.injEq] at hc
        obtain ⟨rfl, rfl⟩ := hc
        refine ⟨rfl, (u, 'b' :: [c]), (starSplits_mem _ u _).mpr rfl, hall, ?_⟩
        exact (rmatch_litOne_iff 'b' _).mpr ⟨c, rfl, hc2⟩

/-- Counterexample to claim C7 as stated: the compiled wildcards do
not match "any character" — `new RegExp` is built without the `s`
flag, so its `.` excludes line terminators. The pattern `_` fails to
match the one-character string "\n", `%` fails to match "\n", and
`a%b_` fails to match "a\nbX", although the claim's reading ("zero or
more of any character", "exactly one character") would make all
three match. -/
theorem claim_C7_counterexample :
    likeTest "_" "\n" = false
  ∧ likeTest "%" "\n" = false
  ∧ likeTest "a%b_" "a\nbX" = false := by
  decide

/-- Claim C7, amended: the LIKE pattern compiler produces an anchored
whole-string match in which an unescaped percent matches zero or more
of any characters other than line terminators (the dot of a flagless
JavaScript RegExp excludes LF, CR, U+2028 and U+2029), an unescaped
underscore matches exactly one non-line-terminator character, and a
percent preceded by a literal backslash matches that character
literally: `a%b_` matches exactly the strings of the shape
a…b+one-character with no line terminator involved (hence matches
"aXXXbY" and not "ab"), and the pattern with an escaped percent
matches only the literal string "100%". -/
theorem claim_C7 :
    (∀ s : String, likeTest "a%b_" s = true
        ↔ ∃ u c, s.data = 'a' :: (u ++ ('b' :: [c]))
            ∧ (∀ x ∈ u, isLineTerminator x = false)
            ∧ isLineTerminator c = false)
  ∧ (∀ s : String, likeTest "100\\%" s = true ↔ s = "100%")
  ∧ likeTest "a%b_" "aXXXbY" = true
  ∧ likeTest "a%b_" "ab" = false := by
  refine ⟨?_, ?_, by decide, by decide⟩
  · intro s
    have hp : parseRegex (like2RegExpSource "a%b_")
        = some [.lit 'a', .anyStar, .lit 'b', .anyOne] := by decide
    simp only [likeTest, hp]
    exact rmatch_abPattern s.data
  · intro s
    have hp : parseRegex (like2RegExpSource "100\\%")
        = some (['1', '0', '0', '%'].map RTok.lit) := by decide
    simp only [likeTest, hp, rmatch_lits_iff]
    constructor
    · intro h
      obtain ⟨d⟩ := s
      subst h
      rfl
    · rintro rfl
      rfl

end SqlParser
